import Mathlib

/-!
Shallow embedding of `mautrix/client/api/modules/media_repository.py`
(class `MediaRepositoryMethods`): the media-repository client binding of
mautrix-python.  Collaborators that live outside this module (the HTTP
transport `self.api`, the `magic` mime sniffer, the deserializers of
`MXOpenGraph` and `MediaRepoConfig`) are passed in as function arguments,
so that each operation is a pure function of its inputs and of the
collaborators' behaviour.
-/

/-- Byte payloads (`bytes` in the source), as lists of byte values. -/
abbrev Bytes := List Nat

/-- `ContentURI`: an opaque `mxc://server/mediaId` string. -/
abbrev ContentURI := String

/-- A value placed in a query-parameter dict by the source: an int
(`width`, `height`, `ts`), a string (`resize_method`, `url`) or a bool
(`allow_remote`). -/
inductive QueryValue where
  | int (n : Int)
  | str (s : String)
  | bool (b : Bool)
deriving DecidableEq, Repr

/-- A JSON value, as returned by the transport for parsed response bodies. -/
inductive JSON where
  | null
  | str (s : String)
  | num (n : Int)
  | bool (b : Bool)
  | arr (elems : List JSON)
  | obj (fields : List (String × JSON))

/-- A parsed JSON object body: the dict the transport hands back. -/
abbrev Body := List (String × JSON)

/-- `APIPath` of the mautrix api module; only `MEDIA` is used here. -/
inductive APIPath where
  | media
deriving DecidableEq, Repr

/-- The download variant passed to `api.get_download_url`
(`download_type="thumbnail"` versus the default). -/
inductive DownloadType where
  | download
  | thumbnail
deriving DecidableEq, Repr

/-- An outgoing HTTP request as assembled by this module before it is handed
to the transport.  A header value of `none` models a Python `None` header
value under a present key. -/
structure Request where
  method : String
  path : String
  content : Option Bytes
  headers : List (String × Option String)
  query_params : List (String × QueryValue)
  api_path : APIPath
deriving Repr

/-- Result of a call into the transport collaborator: a response body, or an
opaque transport-level error (network failure, non-success HTTP status,
cancellation), carried unchanged. -/
inductive TransportResult (α : Type) where
  | success (resp : α)
  | failure (err : String)

/-- Outcome of a `MediaRepositoryMethods` operation: a value, a raised
`MatrixResponseError`, or a transport-level error propagated unchanged. -/
inductive OpResult (α : Type) where
  | ok (val : α)
  | matrixResponseError (msg : String)
  | transportError (err : String)

/-- Python `a or b` for `a : Optional[str]`: `None` and `""` are falsy. -/
def pyOrStr (a : Option String) (b : String) : String :=
  match a with
  | some s => if s = "" then b else s
  | none => b

/-- The content type resolved at the top of `upload_media`:
`if magic: mime_type = mime_type or magic.from_buffer(data, mime=True)`.
`magic` is `none` when the conditional `import magic` failed. -/
def upload_mime_type (magic : Option (Bytes → String)) (data : Bytes)
    (mime_type : Option String) : Option String :=
  match magic with
  | some from_buffer => some (pyOrStr mime_type (from_buffer data))
  | none => mime_type

/-- The request `upload_media` issues: `POST /upload` on the media api path,
with the payload as body and the resolved content type as header. -/
def upload_media_request (magic : Option (Bytes → String)) (data : Bytes)
    (mime_type : Option String) : Request where
  method := "POST"
  path := "/upload"
  content := some data
  headers := [("Content-Type", upload_mime_type magic data mime_type)]
  query_params := []
  api_path := APIPath.media

/-- `upload_media(data, mime_type)`: issue the upload request and return
`resp["content_uri"]`, raising `MatrixResponseError` on `KeyError`. -/
def upload_media (magic : Option (Bytes → String))
    (request : Request → TransportResult Body)
    (data : Bytes) (mime_type : Option String) : OpResult JSON :=
  match request (upload_media_request magic data mime_type) with
  | TransportResult.failure e => OpResult.transportError e
  | TransportResult.success resp =>
    match resp.lookup "content_uri" with
    | some uri => OpResult.ok uri
    | none => OpResult.matrixResponseError "`content_uri` not in response."

/-- `download_media(url)`: resolve the mxc URI through
`api.get_download_url`, then `session.get` the resolved URL and read the
body.  `get_download_url` and `session_get` may fail with a transport-level
error, which propagates unchanged. -/
def download_media (get_download_url : ContentURI → DownloadType → Except String String)
    (session_get : String → Option (List (String × QueryValue)) → TransportResult Bytes)
    (url : ContentURI) : OpResult Bytes :=
  match get_download_url url DownloadType.download with
  | Except.error e => OpResult.transportError e
  | Except.ok u =>
    match session_get u none with
    | TransportResult.failure e => OpResult.transportError e
    | TransportResult.success body => OpResult.ok body

/-- The query-parameter dict built by `download_thumbnail`: starting from
`{}`, each of `width`, `height`, `resize_method`, `allow_remote` is added,
in that order, exactly when it `is not None`. -/
def download_thumbnail_query_params (width : Option Int) (height : Option Int)
    (resize_method : Option String) (allow_remote : Option Bool) :
    List (String × QueryValue) :=
  let qp : List (String × QueryValue) := []
  let qp := match width with
    | some w => qp ++ [("width", QueryValue.int w)]
    | none => qp
  let qp := match height with
    | some h => qp ++ [("height", QueryValue.int h)]
    | none => qp
  let qp := match resize_method with
    | some r => qp ++ [("resize_method", QueryValue.str r)]
    | none => qp
  let qp := match allow_remote with
    | some a => qp ++ [("allow_remote", QueryValue.bool a)]
    | none => qp
  qp

/-- The declared default of the `allow_remote` parameter in the source
signature `allow_remote: bool = True`: a call that does not supply the
argument runs with this value. -/
def allow_remote_default : Option Bool := some true

/-- `download_thumbnail(url, width, height, resize_method, allow_remote)`:
resolve the thumbnail-variant URL, then `session.get` it with the assembled
query parameters and read the body. -/
def download_thumbnail (get_download_url : ContentURI → DownloadType → Except String String)
    (session_get : String → Option (List (String × QueryValue)) → TransportResult Bytes)
    (url : ContentURI) (width : Option Int) (height : Option Int)
    (resize_method : Option String) (allow_remote : Option Bool) : OpResult Bytes :=
  match get_download_url url DownloadType.thumbnail with
  | Except.error e => OpResult.transportError e
  | Except.ok u =>
    match session_get u
        (some (download_thumbnail_query_params width height resize_method allow_remote)) with
    | TransportResult.failure e => OpResult.transportError e
    | TransportResult.success body => OpResult.ok body

/-- The query-parameter dict built by `get_url_preview`:
`{"url": url}`, with `"ts"` added exactly when `timestamp is not None`. -/
def get_url_preview_query_params (url : String) (timestamp : Option Int) :
    List (String × QueryValue) :=
  let qp : List (String × QueryValue) := [("url", QueryValue.str url)]
  match timestamp with
  | some ts => qp ++ [("ts", QueryValue.int ts)]
  | none => qp

/-- The request `get_url_preview` issues: `GET /preview_url` on the media
api path with the assembled query parameters. -/
def get_url_preview_request (url : String) (timestamp : Option Int) : Request where
  method := "GET"
  path := "/preview_url"
  content := none
  headers := []
  query_params := get_url_preview_query_params url timestamp
  api_path := APIPath.media

/-- `get_url_preview(url, timestamp)`: issue the preview request and
deserialize the body as `MXOpenGraph` (the type and its deserializer are
external, hence parameters here); a `SerializerError` is translated into
`MatrixResponseError`. -/
def get_url_preview {MXOpenGraph : Type}
    (deserialize : Body → Except String MXOpenGraph)
    (request : Request → TransportResult Body)
    (url : String) (timestamp : Option Int) : OpResult MXOpenGraph :=
  match request (get_url_preview_request url timestamp) with
  | TransportResult.failure e => OpResult.transportError e
  | TransportResult.success content =>
    match deserialize content with
    | Except.ok v => OpResult.ok v
    | Except.error _ => OpResult.matrixResponseError "Invalid MXOpenGraph in response."

/-- The request `get_media_repo_config` issues: `GET /config` on the media
api path, no body, no query parameters. -/
def get_media_repo_config_request : Request where
  method := "GET"
  path := "/config"
  content := none
  headers := []
  query_params := []
  api_path := APIPath.media

/-- `get_media_repo_config()`: issue the config request and deserialize the
body as `MediaRepoConfig` (external deserializer passed as a parameter); a
`SerializerError` is translated into `MatrixResponseError`. -/
def get_media_repo_config {MediaRepoConfigT : Type}
    (deserialize : Body → Except String MediaRepoConfigT)
    (request : Request → TransportResult Body) : OpResult MediaRepoConfigT :=
  match request get_media_repo_config_request with
  | TransportResult.failure e => OpResult.transportError e
  | TransportResult.success content =>
    match deserialize content with
    | Except.ok v => OpResult.ok v
    | Except.error _ => OpResult.matrixResponseError "Invalid MediaRepoConfig in response"

/-- Modelled from the spec: `MediaRepoConfig` (defined in
`mautrix.client.api.types`, which is not among the given sources) carries
the server-advertised constraints, such as the `m.upload.size` limit; every
field of the value is inherently optional. -/
structure MediaRepoConfig where
  upload_size : Option Int
deriving DecidableEq, Repr

/-- Modelled from the spec: the external deserializer of `MediaRepoConfig`.
All fields are optional, so an absent field deserializes to an absent field
of the value, not to an error; in particular `{}` deserializes to the
all-fields-absent config. -/
def MediaRepoConfig.deserialize (body : Body) : Except String MediaRepoConfig :=
  match body.lookup "m.upload.size" with
  | none => Except.ok { upload_size := none }
  | some (JSON.num n) => Except.ok { upload_size := some n }
  | some _ => Except.error "invalid m.upload.size"

/-- C1: for every combination of the four optional thumbnail arguments
being non-absent or absent, the query-parameter set built by
`download_thumbnail` has exactly the keys whose argument was non-absent,
each mapped to the supplied value, with no extraneous, duplicate or missing
keys; in particular width=64, height=64, resize_method=None,
allow_remote=None yields exactly width=64 and height=64. -/
theorem C1_thumbnail_query_exact (w h : Option Int) (r : Option String) (a : Option Bool) :
    ((download_thumbnail_query_params w h r a).lookup "width" = w.map QueryValue.int) ∧
    ((download_thumbnail_query_params w h r a).lookup "height" = h.map QueryValue.int) ∧
    ((download_thumbnail_query_params w h r a).lookup "resize_method" = r.map QueryValue.str) ∧
    ((download_thumbnail_query_params w h r a).lookup "allow_remote" = a.map QueryValue.bool) ∧
    (∀ p ∈ download_thumbnail_query_params w h r a,
      p.1 = "width" ∨ p.1 = "height" ∨ p.1 = "resize_method" ∨ p.1 = "allow_remote") ∧
    (((download_thumbnail_query_params w h r a).map Prod.fst).Nodup) ∧
    (download_thumbnail_query_params (some 64) (some 64) none none =
      [("width", QueryValue.int 64), ("height", QueryValue.int 64)]) := by
  rcases w with _ | w <;> rcases h with _ | h <;> rcases r with _ | r <;> rcases a with _ | a <;>
    simp [download_thumbnail_query_params, List.lookup]

/-- C2 is false as stated: a `download_thumbnail` call that does not supply
`allow_remote` runs with the declared default `True`, which `is not None`,
so the query-parameter set does contain `allow_remote=true`. -/
theorem C2_counterexample :
    ("allow_remote", QueryValue.bool true) ∈
      download_thumbnail_query_params (some 64) (some 64) none allow_remote_default := by
  decide

/-- C2 (amended): when the caller does not supply `allow_remote`, the
declared default `True` applies and `allow_remote=true` is included in the
query-parameter set; the `allow_remote` parameter is omitted exactly when
the caller explicitly passes `None`. -/
theorem C2_amended_default_allow_remote (w h : Option Int) (r : Option String) :
    (("allow_remote", QueryValue.bool true) ∈
      download_thumbnail_query_params w h r allow_remote_default) ∧
    (∀ v, ("allow_remote", v) ∉ download_thumbnail_query_params w h r none) := by
  rcases w with _ | w <;> rcases h with _ | h <;> rcases r with _ | r <;>
    simp [download_thumbnail_query_params, allow_remote_default]

/-- C3: on a successful upload request, `upload_media` raises
`MatrixResponseError` if and only if the response body lacks the
`content_uri` field, and otherwise returns exactly that field's value. -/
theorem C3_upload_content_uri (magic : Option (Bytes → String)) (data : Bytes)
    (mime_type : Option String) (resp : Body) :
    (upload_media magic (fun _ => TransportResult.success resp) data mime_type =
        OpResult.matrixResponseError "`content_uri` not in response." ↔
      resp.lookup "content_uri" = none) ∧
    (∀ uri, resp.lookup "content_uri" = some uri →
      upload_media magic (fun _ => TransportResult.success resp) data mime_type =
        OpResult.ok uri) := by
  unfold upload_media
  cases hl : resp.lookup "content_uri" with
  | none => simp [hl]
  | some uri => simp [hl]

/-- C3 witness: a response carrying `content_uri` makes `upload_media`
return exactly that value. -/
theorem C3_upload_content_uri_witness :
    upload_media none
        (fun _ => TransportResult.success [("content_uri", JSON.str "mxc://example.org/abc123")])
        [104, 101, 108, 108, 111] none =
      OpResult.ok (JSON.str "mxc://example.org/abc123") :=
  (C3_upload_content_uri none [104, 101, 108, 108, 111] none
      [("content_uri", JSON.str "mxc://example.org/abc123")]).2
    (JSON.str "mxc://example.org/abc123") rfl

/-- C4: with the sniffer available, an absent declared content type makes
`upload_media` send the sniffed type, and a non-empty declared content type
is sent unchanged. -/
theorem C4_upload_content_type (from_buffer : Bytes → String) (data : Bytes) :
    ((upload_media_request (some from_buffer) data none).headers =
      [("Content-Type", some (from_buffer data))]) ∧
    (∀ declared : String, declared ≠ "" →
      (upload_media_request (some from_buffer) data (some declared)).headers =
        [("Content-Type", some declared)]) := by
  constructor
  · simp [upload_media_request, upload_mime_type, pyOrStr]
  · intro declared hd
    simp [upload_media_request, upload_mime_type, pyOrStr, hd]

/-- C4 witness: a declared non-empty content type is sent unchanged even
when a sniffer is available. -/
theorem C4_upload_content_type_witness :
    (upload_media_request (some (fun _ => "text/plain")) [104] (some "image/png")).headers =
      [("Content-Type", some "image/png")] :=
  (C4_upload_content_type (fun _ => "text/plain") [104]).2 "image/png" (by decide)

/-- C5: with no sniffer and no declared content type, `upload_media` still
issues the request with the full payload as body and a present
`Content-Type` header key whose value is absent (`None`), and a response
carrying `content_uri` makes it return that identifier. -/
theorem C5_upload_no_sniffer (data : Bytes) (resp : Body) (uri : JSON)
    (hl : resp.lookup "content_uri" = some uri) :
    ((upload_media_request none data none).content = some data) ∧
    ((upload_media_request none data none).headers = [("Content-Type", none)]) ∧
    (upload_media none (fun _ => TransportResult.success resp) data none = OpResult.ok uri) := by
  refine ⟨rfl, rfl, ?_⟩
  unfold upload_media
  simp [hl]

/-- C5 witness: uploading `b"hello"` with no declared type and no sniffer,
against a server answering with `content_uri = mxc://example.org/abc123`,
returns that identifier. -/
theorem C5_upload_no_sniffer_witness :
    upload_media none
        (fun _ => TransportResult.success [("content_uri", JSON.str "mxc://example.org/abc123")])
        [104, 101, 108, 108, 111] none =
      OpResult.ok (JSON.str "mxc://example.org/abc123") :=
  (C5_upload_no_sniffer [104, 101, 108, 108, 111]
      [("content_uri", JSON.str "mxc://example.org/abc123")]
      (JSON.str "mxc://example.org/abc123") rfl).2.2

/-- C10: with the sniffer available, a declared empty-string content type is
falsy under Python `or`, so it is not sent: the sniffed type is sent
instead. -/
theorem C10_empty_mime_sniffed (from_buffer : Bytes → String) (data : Bytes) :
    (upload_media_request (some from_buffer) data (some "")).headers =
      [("Content-Type", some (from_buffer data))] := by
  simp [upload_media_request, upload_mime_type, pyOrStr]

/-- C6: the preview query-parameter set always contains `url` mapped to the
given URL, contains `ts` exactly when a timestamp was supplied, and
contains no other keys. -/
theorem C6_preview_query_exact (url : String) (ts : Option Int) :
    ((get_url_preview_query_params url ts).lookup "url" = some (QueryValue.str url)) ∧
    ((get_url_preview_query_params url ts).lookup "ts" = ts.map QueryValue.int) ∧
    (∀ p ∈ get_url_preview_query_params url ts, p.1 = "url" ∨ p.1 = "ts") ∧
    (((get_url_preview_query_params url ts).map Prod.fst).Nodup) := by
  rcases ts with _ | t <;> simp [get_url_preview_query_params, List.lookup]

/-- C7: on a deserialization error, `get_url_preview` and
`get_media_repo_config` each fail with `MatrixResponseError` and return no
value; when deserialization succeeds, the deserialized value is returned. -/
theorem C7_deserialization_boundary (A B : Type)
    (dp : Body → Except String A) (dc : Body → Except String B)
    (url : String) (ts : Option Int) (content : Body) :
    (∀ e, dp content = Except.error e →
      get_url_preview dp (fun _ => TransportResult.success content) url ts =
        OpResult.matrixResponseError "Invalid MXOpenGraph in response.") ∧
    (∀ v, dp content = Except.ok v →
      get_url_preview dp (fun _ => TransportResult.success content) url ts = OpResult.ok v) ∧
    (∀ e, dc content = Except.error e →
      get_media_repo_config dc (fun _ => TransportResult.success content) =
        OpResult.matrixResponseError "Invalid MediaRepoConfig in response") ∧
    (∀ v, dc content = Except.ok v →
      get_media_repo_config dc (fun _ => TransportResult.success content) = OpResult.ok v) := by
  refine ⟨?_, ?_, ?_, ?_⟩ <;> intro x hx <;>
    simp [get_url_preview, get_media_repo_config, hx]

/-- C7 witness: a failing preview deserializer yields the
`MatrixResponseError`, and the config deserializer on `{}` yields its
value. -/
theorem C7_deserialization_boundary_witness :
    (get_url_preview (fun _ => (Except.error "bad" : Except String Unit))
        (fun _ => TransportResult.success []) "https://example.org" none =
      OpResult.matrixResponseError "Invalid MXOpenGraph in response.") ∧
    (get_media_repo_config MediaRepoConfig.deserialize
        (fun _ => TransportResult.success []) =
      OpResult.ok { upload_size := none }) :=
  ⟨(C7_deserialization_boundary Unit MediaRepoConfig (fun _ => Except.error "bad")
      MediaRepoConfig.deserialize "https://example.org" none []).1 "bad" rfl,
   (C7_deserialization_boundary Unit MediaRepoConfig (fun _ => Except.error "bad")
      MediaRepoConfig.deserialize "https://example.org" none []).2.2.2
     { upload_size := none } rfl⟩

/-- C8: `get_media_repo_config` against a server returning the empty object
returns a config with every field absent, not an error. -/
theorem C8_config_empty_body :
    get_media_repo_config MediaRepoConfig.deserialize
        (fun _ => TransportResult.success []) =
      OpResult.ok { upload_size := none } := rfl

/-- C9: every operation propagates a transport-level failure — of the
transport request, of URL resolution, or of the get/read of the stream —
unchanged to the caller, for every error value. -/
theorem C9_transport_propagation (e : String) (magic : Option (Bytes → String))
    (data : Bytes) (mt : Option String) (u url : String)
    (w h : Option Int) (r : Option String) (a : Option Bool)
    (A : Type) (des : Body → Except String A) (ts : Option Int) :
    (upload_media magic (fun _ => TransportResult.failure e) data mt =
      OpResult.transportError e) ∧
    (download_media (fun _ _ => Except.error e)
      (fun _ _ => TransportResult.success []) url = OpResult.transportError e) ∧
    (download_media (fun _ _ => Except.ok u)
      (fun _ _ => TransportResult.failure e) url = OpResult.transportError e) ∧
    (download_thumbnail (fun _ _ => Except.error e)
      (fun _ _ => TransportResult.success []) url w h r a = OpResult.transportError e) ∧
    (download_thumbnail (fun _ _ => Except.ok u)
      (fun _ _ => TransportResult.failure e) url w h r a = OpResult.transportError e) ∧
    (get_url_preview des (fun _ => TransportResult.failure e) url ts =
      OpResult.transportError e) ∧
    (get_media_repo_config des (fun _ => TransportResult.failure e) =
      OpResult.transportError e) :=
  ⟨rfl, rfl, rfl, rfl, rfl, rfl, rfl⟩
